import Mathlib

/-!
Verification development for the customer-address management component
(`useCustomerAddresses` hook and `AddressSelector` component).

The remote relational table `customer_addresses` is modelled as a list of
`Address` rows; each supabase call of the source is embedded as an explicit
function on that list, and every mutation returns, besides its result,
the resulting table state and the trace of remote calls it issued, in
issue order.  Transport failures of the two remote calls of `create` and
`setDefault` are modelled by the two boolean parameters `fail1`/`fail2`
(a failing call leaves the table unchanged); the source ignores the
result of the first call and throws on an error of the second, which the
embedding reproduces.  Timestamps are naturals, identifiers are strings
(uuids), and the server-assigned id and `now()` of an insert are passed
as explicit parameters.
-/

/-- Row shape of the `customer_addresses` table (interface `CustomerAddress`). -/
structure Address where
  id : String
  user_id : String
  address_label : String
  full_address : String
  landmark : Option String
  panchayat_id : Option String
  ward_number : Option Int
  is_default : Bool
  created_at : Nat
  updated_at : Nat
deriving DecidableEq, Repr

/-- State of the remote `customer_addresses` table. -/
abbrev DB := List Address

/-- Interface `CreateAddressInput` of the source: optional fields are `Option`. -/
structure CreateAddressInput where
  address_label : Option String
  full_address : String
  landmark : Option String
  panchayat_id : Option String
  ward_number : Option Int
  is_default : Option Bool
deriving DecidableEq, Repr

/-- Argument of `updateAddressMutation`: `Partial<CreateAddressInput>`, every
field optional; an absent field is not patched. -/
structure UpdateInput where
  address_label : Option String
  full_address : Option String
  landmark : Option String
  panchayat_id : Option String
  ward_number : Option Int
  is_default : Option Bool
deriving DecidableEq, Repr

/-- Error taxonomy of the component (spec section 7). -/
inductive AddrError where
  | ValidationError
  | NotFoundError
  | PersistenceError
  | UnauthenticatedError
deriving DecidableEq, Repr

/-- Descriptor of one remote-store call, recorded in issue order. -/
inductive RemoteCall where
  | selectAddresses (uid : String)
  | clearDefaultsCall (uid : String)
  | clearDefaultsExceptCall (uid xid : String)
  | insertRowCall (row : Address)
  | setDefaultCall (uid xid : String)
  | patchRowCall (uid xid : String)
  | deleteRowCall (uid xid : String)
deriving DecidableEq, Repr

/-- Outcome of one mutation: its result, the table afterwards, and the
remote calls it issued, in order. -/
structure OpResult (α : Type) where
  result : Except AddrError α
  db : DB
  trace : List RemoteCall

/-- JavaScript `x || null` on an optional string: `undefined` and `""` are
falsy and coerce to `null`. -/
def jsOrNullString (s : Option String) : Option String :=
  match s with
  | some v => if v = "" then none else some v
  | none => none

/-- JavaScript `x || null` on an optional number: `undefined` and `0` are
falsy and coerce to `null`. -/
def jsOrNullInt (n : Option Int) : Option Int :=
  match n with
  | some v => if v = 0 then none else some v
  | none => none

/-- JavaScript `input.address_label || 'Home'`: `undefined` and `""` coerce
to the label `"Home"`. -/
def jsOrHome (s : Option String) : String :=
  match s with
  | some v => if v = "" then "Home" else v
  | none => "Home"

/-- JavaScript `String.prototype.trim`: strip leading and trailing
whitespace (embedded over the character list so it evaluates). -/
def jsTrim (s : String) : String :=
  String.mk (((s.data.dropWhile Char.isWhitespace).reverse.dropWhile Char.isWhitespace).reverse)

/-- Effect on one row of `update({ is_default: false }).eq('user_id', uid)`:
the clear-all-defaults call of `create` and `setDefault`. -/
def clearRow (uid : String) (a : Address) : Address :=
  if a.user_id = uid then { a with is_default := false } else a

/-- Table effect of the clear-all-defaults call. -/
def clearDefaults (uid : String) (db : DB) : DB :=
  db.map (clearRow uid)

/-- Effect on one row of
`update({ is_default: false }).eq('user_id', uid).neq('id', xid)`:
the clear step of `update`, which excludes the target row. -/
def clearRowExcept (uid xid : String) (a : Address) : Address :=
  if a.user_id = uid ∧ a.id ≠ xid then { a with is_default := false } else a

/-- Table effect of the clear-other-defaults call of `update`. -/
def clearDefaultsExcept (uid xid : String) (db : DB) : DB :=
  db.map (clearRowExcept uid xid)

/-- Effect on one row of
`update({ is_default: true, updated_at: now }).eq('id', xid).eq('user_id', uid)`:
the second call of `setDefault`. -/
def setDefaultRow (uid xid : String) (now : Nat) (a : Address) : Address :=
  if a.id = xid ∧ a.user_id = uid then { a with is_default := true, updated_at := now } else a

/-- Patch applied by `updateAddressMutation`'s final call: spread of the
partial input plus a refreshed `updated_at` (absent fields unchanged). -/
def patchRow (p : UpdateInput) (now : Nat) (a : Address) : Address :=
  { a with
    address_label := p.address_label.getD a.address_label
    full_address := p.full_address.getD a.full_address
    landmark := match p.landmark with | some s => some s | none => a.landmark
    panchayat_id := match p.panchayat_id with | some s => some s | none => a.panchayat_id
    ward_number := match p.ward_number with | some n => some n | none => a.ward_number
    is_default := p.is_default.getD a.is_default
    updated_at := now }

/-- Row built by `createAddressMutation`'s insert call, with the falsy-value
coercions of the source (`input.address_label || 'Home'`,
`input.landmark || null`, `input.panchayat_id || null`,
`input.ward_number || null`, `input.is_default || false`); `newId` and
`now` are the server-assigned id and timestamp. -/
def buildInsertRow (uid : String) (input : CreateAddressInput) (newId : String) (now : Nat) : Address :=
  { id := newId
    user_id := uid
    address_label := jsOrHome input.address_label
    full_address := input.full_address
    landmark := jsOrNullString input.landmark
    panchayat_id := jsOrNullString input.panchayat_id
    ward_number := jsOrNullInt input.ward_number
    is_default := input.is_default.getD false
    created_at := now
    updated_at := now }

/-- Ordering requested by the list query:
`order('is_default', descending)` then `order('created_at', descending)`. -/
def addrOrder (a b : Address) : Prop :=
  (a.is_default = true ∧ b.is_default = false) ∨
  (a.is_default = b.is_default ∧ b.created_at ≤ a.created_at)

instance : DecidableRel addrOrder := fun a b => by
  unfold addrOrder
  exact inferInstance

/-- Query of the hook: `select('*').eq('user_id', ...).order(...).order(...)`,
returning `[]` when no user is resolved. -/
def customerAddressesQuery (user : Option String) (db : DB) : List Address :=
  match user with
  | none => []
  | some uid => List.insertionSort addrOrder (db.filter (fun a => decide (a.user_id = uid)))

/-- Mutation `createAddressMutation`: when the input requests the default
flag, first issue the clear-all-defaults call (its error is never
inspected), then insert the coerced row; an error of the insert call is
thrown. -/
def createAddressMutation (user : Option String) (input : CreateAddressInput)
    (newId : String) (now : Nat) (fail1 fail2 : Bool) (db : DB) : OpResult Address :=
  match user with
  | none => ⟨.error .UnauthenticatedError, db, []⟩
  | some uid =>
    let step1 : DB × List RemoteCall :=
      if input.is_default.getD false then
        ((if fail1 then db else clearDefaults uid db), [RemoteCall.clearDefaultsCall uid])
      else (db, [])
    let row := buildInsertRow uid input newId now
    if fail2 then
      ⟨.error .PersistenceError, step1.1, step1.2 ++ [RemoteCall.insertRowCall row]⟩
    else
      ⟨.ok row, step1.1 ++ [row], step1.2 ++ [RemoteCall.insertRowCall row]⟩

/-- Rows matched by `.eq('id', xid).eq('user_id', uid)`. -/
def matchedRows (uid xid : String) (db : DB) : List Address :=
  db.filter (fun a => decide (a.id = xid ∧ a.user_id = uid))

/-- Table effect of `updateAddressMutation`'s final call: patch every row
matching both filters. -/
def updateTargetRows (uid xid : String) (input : UpdateInput) (now : Nat) (db : DB) : DB :=
  db.map (fun a => if a.id = xid ∧ a.user_id = uid then patchRow input now a else a)

/-- Final call of `updateAddressMutation` with the `.single()` shaping: the
patch is applied to the matched rows server-side; the client errors unless
exactly one row came back. -/
def updateAddressBody (uid xid : String) (input : UpdateInput) (now : Nat)
    (db1 : DB) (tr1 : List RemoteCall) : OpResult Address :=
  match matchedRows uid xid db1 with
  | [a] => ⟨.ok (patchRow input now a), updateTargetRows uid xid input now db1,
            tr1 ++ [RemoteCall.patchRowCall uid xid]⟩
  | _ => ⟨.error .NotFoundError, updateTargetRows uid xid input now db1,
          tr1 ++ [RemoteCall.patchRowCall uid xid]⟩

/-- Mutation `updateAddressMutation`: when the partial input requests the
default flag, first clear the defaults of the owner's other rows
(`.neq('id', id)`), then patch the target row, refreshing `updated_at`. -/
def updateAddressMutation (user : Option String) (xid : String) (input : UpdateInput)
    (now : Nat) (db : DB) : OpResult Address :=
  match user with
  | none => ⟨.error .UnauthenticatedError, db, []⟩
  | some uid =>
    if input.is_default.getD false then
      updateAddressBody uid xid input now (clearDefaultsExcept uid xid db)
        [RemoteCall.clearDefaultsExceptCall uid xid]
    else
      updateAddressBody uid xid input now db []

/-- Mutation `deleteAddressMutation`: delete rows matching both filters; a
delete matching no row is not an error. -/
def deleteAddressMutation (user : Option String) (xid : String) (db : DB) : OpResult Unit :=
  match user with
  | none => ⟨.error .UnauthenticatedError, db, []⟩
  | some uid =>
    ⟨.ok (), db.filter (fun a => !decide (a.id = xid ∧ a.user_id = uid)),
     [RemoteCall.deleteRowCall uid xid]⟩

/-- Mutation `setDefaultAddressMutation`: unset all the owner's defaults
(result not inspected), then set the target row's default flag and refresh
its `updated_at`; an error of the second call is thrown. -/
def setDefaultAddressMutation (user : Option String) (xid : String) (now : Nat)
    (fail1 fail2 : Bool) (db : DB) : OpResult Unit :=
  match user with
  | none => ⟨.error .UnauthenticatedError, db, []⟩
  | some uid =>
    let db1 := if fail1 then db else clearDefaults uid db
    let tr := [RemoteCall.clearDefaultsCall uid, RemoteCall.setDefaultCall uid xid]
    if fail2 then ⟨.error .PersistenceError, db1, tr⟩
    else ⟨.ok (), db1.map (setDefaultRow uid xid now), tr⟩

/-- Derivation `defaultAddress = addresses?.find(a => a.is_default) || addresses?.[0]`
of the hook, also the initial-selection rule of `AddressSelector`'s effect:
a pure function of the fetched list, issuing no remote call. -/
def defaultAddress (addresses : List Address) : Option Address :=
  match addresses.find? (fun a => a.is_default) with
  | some a => some a
  | none => addresses.head?

/-- Form state of `AddressSelector` relevant to saving. -/
structure FormState where
  addressLabel : String
  fullAddress : String
  landmark : String
  isDefault : Bool
deriving DecidableEq, Repr

/-- Handler `handleSaveAddress` of `AddressSelector`: reject a blank full
address before any remote call, otherwise build the input
(`landmark || undefined`, `selectedWardNumber || undefined`) and invoke
update (edit mode) or create. -/
def handleSaveAddress (user : Option String) (form : FormState)
    (selectedPanchayat : Option String) (selectedWardNumber : Option Int)
    (editingAddress : Option String) (newId : String) (now : Nat) (db : DB) : OpResult Address :=
  if jsTrim form.fullAddress = "" then
    ⟨.error .ValidationError, db, []⟩
  else
    match editingAddress with
    | some xid =>
      updateAddressMutation user xid
        { address_label := some form.addressLabel
          full_address := some form.fullAddress
          landmark := jsOrNullString (some form.landmark)
          panchayat_id := selectedPanchayat
          ward_number := jsOrNullInt selectedWardNumber
          is_default := some form.isDefault } now db
    | none =>
      createAddressMutation user
        { address_label := some form.addressLabel
          full_address := form.fullAddress
          landmark := jsOrNullString (some form.landmark)
          panchayat_id := selectedPanchayat
          ward_number := jsOrNullInt selectedWardNumber
          is_default := some form.isDefault } newId now false false db

/-- Count of rows of owner `u` carrying the default flag. -/
def isDefaultFor (u : String) (a : Address) : Bool :=
  decide (a.user_id = u) && a.is_default

/-- Number of default-flagged rows a given owner has in the table. -/
def countDefaults (u : String) (db : DB) : Nat :=
  db.countP (isDefaultFor u)

instance : IsTotal Address addrOrder := by
  constructor
  intro a b
  unfold addrOrder
  rcases Nat.le_total b.created_at a.created_at with hc | hc <;>
    cases ha : a.is_default <;> cases hb : b.is_default <;> simp_all

instance : IsTrans Address addrOrder := by
  constructor
  intro a b c hab hbc
  unfold addrOrder at hab hbc ⊢
  rcases hab with ⟨ha, hb⟩ | ⟨hab, hc1⟩ <;> rcases hbc with ⟨hb2, hc2⟩ | ⟨hbc, hc3⟩
  · rw [hb] at hb2
    exact absurd hb2 (by simp)
  · exact Or.inl ⟨ha, by rw [← hbc]; exact hb⟩
  · exact Or.inl ⟨by rw [hab]; exact hb2, hc2⟩
  · exact Or.inr ⟨hab.trans hbc, Nat.le_trans hc3 hc1⟩

/-- Concrete row fixture: a default-flagged address of owner u1. -/
def addrW1 : Address := ⟨"a1", "u1", "Home", "12 Palm Rd", none, none, none, true, 1, 1⟩

/-- Concrete row fixture: a non-default address of owner u1, created later. -/
def addrW2 : Address := ⟨"b1", "u1", "Work", "5 Oak St", none, none, none, false, 2, 2⟩

/-- Concrete row fixture: an address of a different owner u2. -/
def addrW3 : Address := ⟨"x1", "u2", "Home", "9 Elm Ave", none, none, none, false, 3, 3⟩

/-- Concrete create input carrying every falsy optional value and the
default-flag request. -/
def inputW : CreateAddressInput := ⟨some "", "12 Palm Rd", some "", none, some 0, some true⟩

/-- Concrete partial update input promoting the target row to default. -/
def patchW : UpdateInput := ⟨none, none, none, none, none, some true⟩

/-- Concrete partial update input patching nothing in particular. -/
def patchN : UpdateInput := ⟨none, none, none, none, none, none⟩

/-! General counting and row lemmas used by the claim theorems. -/

theorem countP_map_eq (p : Address → Bool) (f : Address → Address) (l : List Address) :
    (l.map f).countP p = l.countP (fun a => p (f a)) := by
  induction l with
  | nil => rfl
  | cons a l ih => simp [List.countP_cons, ih]

theorem countP_le_countP_of_mem (p q : Address → Bool) (l : List Address)
    (h : ∀ a ∈ l, p a = true → q a = true) : l.countP p ≤ l.countP q := by
  induction l with
  | nil => exact Nat.le_refl 0
  | cons a l ih =>
    have h1 := h a (List.mem_cons_self a l)
    have h2 : ∀ b ∈ l, p b = true → q b = true := fun b hb => h b (List.mem_cons_of_mem a hb)
    rw [List.countP_cons, List.countP_cons]
    by_cases hp : p a = true
    · rw [if_pos hp, if_pos (h1 hp)]
      exact Nat.add_le_add_right (ih h2) 1
    · rw [if_neg hp, Nat.add_zero]
      exact Nat.le_trans (ih h2) (Nat.le_add_right _ _)

theorem countP_le_one_of_nodup_id (l : List Address) (x : String)
    (hnd : (l.map Address.id).Nodup) (p : Address → Bool)
    (hp : ∀ a ∈ l, p a = true → a.id = x) : l.countP p ≤ 1 := by
  induction l with
  | nil => exact Nat.zero_le 1
  | cons a l ih =>
    rw [List.map_cons, List.nodup_cons] at hnd
    rw [List.countP_cons]
    by_cases hpa : p a = true
    · have hax : a.id = x := hp a (List.mem_cons_self a l) hpa
      have hzero : l.countP p = 0 := by
        apply List.countP_eq_zero.mpr
        intro b hb hpb
        have hbx : b.id = x := hp b (List.mem_cons_of_mem a hb) hpb
        have hmem : b.id ∈ l.map Address.id := List.mem_map_of_mem Address.id hb
        rw [hbx, ← hax] at hmem
        exact hnd.1 hmem
      rw [hzero, if_pos hpa]
    · rw [if_neg hpa, Nat.add_zero]
      exact ih hnd.2 (fun b hb => hp b (List.mem_cons_of_mem a hb))

theorem countDefaults_append (u : String) (l m : DB) :
    countDefaults u (l ++ m) = countDefaults u l + countDefaults u m := by
  unfold countDefaults
  exact List.countP_append ..

theorem isDefaultFor_iff (u : String) (a : Address) :
    isDefaultFor u a = true ↔ a.user_id = u ∧ a.is_default = true := by
  unfold isDefaultFor
  simp [Bool.and_eq_true, decide_eq_true_eq]

theorem countDefaults_map_le (u : String) (f : Address → Address) (db : DB)
    (h : ∀ a ∈ db, isDefaultFor u (f a) = true → isDefaultFor u a = true) :
    countDefaults u (db.map f) ≤ countDefaults u db := by
  unfold countDefaults
  rw [countP_map_eq]
  exact countP_le_countP_of_mem _ _ _ h

theorem countDefaults_clearDefaults_self (uid : String) (db : DB) :
    countDefaults uid (clearDefaults uid db) = 0 := by
  unfold countDefaults clearDefaults
  rw [countP_map_eq]
  apply List.countP_eq_zero.mpr
  intro a _
  unfold clearRow isDefaultFor
  by_cases h : a.user_id = uid <;> simp [h]

theorem clearRow_id (uid : String) (a : Address) : (clearRow uid a).id = a.id := by
  unfold clearRow
  split <;> rfl

theorem clearRowExcept_id (uid xid : String) (a : Address) :
    (clearRowExcept uid xid a).id = a.id := by
  unfold clearRowExcept
  split <;> rfl

theorem patchRow_user_id (p : UpdateInput) (now : Nat) (a : Address) :
    (patchRow p now a).user_id = a.user_id := rfl

theorem patchRow_is_default (p : UpdateInput) (now : Nat) (a : Address) :
    (patchRow p now a).is_default = p.is_default.getD a.is_default := rfl

theorem map_id_map_of_id_preserved (f : Address → Address)
    (h : ∀ a, (f a).id = a.id) (db : DB) :
    (db.map f).map Address.id = db.map Address.id := by
  induction db with
  | nil => rfl
  | cons a l ih => simp [h, ih]

theorem isDefaultFor_clearRow (u uid : String) (a : Address)
    (h : isDefaultFor u (clearRow uid a) = true) : isDefaultFor u a = true := by
  unfold clearRow at h
  by_cases hc : a.user_id = uid
  · rw [if_pos hc, isDefaultFor_iff] at h
    exact absurd h.2 (by simp)
  · rwa [if_neg hc] at h

theorem isDefaultFor_clearRowExcept (u uid xid : String) (a : Address)
    (h : isDefaultFor u (clearRowExcept uid xid a) = true) : isDefaultFor u a = true := by
  unfold clearRowExcept at h
  by_cases hc : a.user_id = uid ∧ a.id ≠ xid
  · rw [if_pos hc, isDefaultFor_iff] at h
    exact absurd h.2 (by simp)
  · rwa [if_neg hc] at h

theorem isDefaultFor_setDefaultRow_ne (u uid xid : String) (now : Nat) (a : Address)
    (hu : u ≠ uid) (h : isDefaultFor u (setDefaultRow uid xid now a) = true) :
    isDefaultFor u a = true := by
  unfold setDefaultRow at h
  by_cases hc : a.id = xid ∧ a.user_id = uid
  · rw [if_pos hc, isDefaultFor_iff] at h
    exact absurd (h.1.symm.trans hc.2) hu
  · rwa [if_neg hc] at h

theorem updateAddressBody_db (uid xid : String) (input : UpdateInput) (now : Nat)
    (db1 : DB) (tr1 : List RemoteCall) :
    (updateAddressBody uid xid input now db1 tr1).db = updateTargetRows uid xid input now db1 := by
  unfold updateAddressBody
  cases hm : matchedRows uid xid db1 with
  | nil => rfl
  | cons a tl => cases tl <;> rfl

theorem updateAddressBody_trace (uid xid : String) (input : UpdateInput) (now : Nat)
    (db1 : DB) (tr1 : List RemoteCall) :
    (updateAddressBody uid xid input now db1 tr1).trace
      = tr1 ++ [RemoteCall.patchRowCall uid xid] := by
  unfold updateAddressBody
  cases hm : matchedRows uid xid db1 with
  | nil => rfl
  | cons a tl => cases tl <;> rfl

theorem createAddressMutation_db (uid : String) (input : CreateAddressInput)
    (newId : String) (now : Nat) (db : DB) :
    (createAddressMutation (some uid) input newId now false false db).db
      = (if input.is_default.getD false then clearDefaults uid db else db)
        ++ [buildInsertRow uid input newId now] := by
  unfold createAddressMutation
  by_cases hd : input.is_default.getD false <;> simp [hd]

theorem updateAddressMutation_db (uid xid : String) (patch : UpdateInput)
    (now : Nat) (db : DB) :
    (updateAddressMutation (some uid) xid patch now db).db
      = updateTargetRows uid xid patch now
          (if patch.is_default.getD false then clearDefaultsExcept uid xid db else db) := by
  unfold updateAddressMutation
  by_cases hd : patch.is_default.getD false <;> simp [hd, updateAddressBody_db]

theorem setDefaultAddressMutation_db (uid xid : String) (now : Nat) (db : DB) :
    (setDefaultAddressMutation (some uid) xid now false false db).db
      = (clearDefaults uid db).map (setDefaultRow uid xid now) := by
  unfold setDefaultAddressMutation
  simp

/-- Claim C1: for every owner, after any single successful `create`, `update`
or `setDefault` invocation (sequential, non-concurrent) on a well-formed
table (distinct row ids, the table's primary key) satisfying the invariant,
at most one of that owner's addresses has `is_default = true`. -/
theorem default_invariant_preserved
    (db : DB) (uid u newId xid : String) (input : CreateAddressInput)
    (patch : UpdateInput) (now : Nat)
    (hWF : (db.map Address.id).Nodup)
    (hInv : ∀ v, countDefaults v db ≤ 1) :
    countDefaults u (createAddressMutation (some uid) input newId now false false db).db ≤ 1 ∧
    countDefaults u (updateAddressMutation (some uid) xid patch now db).db ≤ 1 ∧
    countDefaults u (setDefaultAddressMutation (some uid) xid now false false db).db ≤ 1 := by
  refine ⟨?_, ?_, ?_⟩
  · rw [createAddressMutation_db]
    by_cases hd : input.is_default.getD false
    · rw [if_pos hd, countDefaults_append]
      by_cases hu : u = uid
      · subst hu
        rw [countDefaults_clearDefaults_self]
        have hone : countDefaults u [buildInsertRow u input newId now] ≤ 1 := by
          unfold countDefaults
          exact Nat.le_trans (List.countP_le_length _) (by simp)
        omega
      · have h1 : countDefaults u (clearDefaults uid db) ≤ countDefaults u db :=
          countDefaults_map_le _ _ _ (fun a _ h => isDefaultFor_clearRow u uid a h)
        have h2 : countDefaults u [buildInsertRow uid input newId now] = 0 := by
          unfold countDefaults
          rw [List.countP_cons]
          have : isDefaultFor u (buildInsertRow uid input newId now) = false := by
            unfold isDefaultFor buildInsertRow
            simp [Ne.symm hu]
          simp [this]
        have := hInv u
        omega
    · rw [if_neg hd, countDefaults_append]
      have h2 : countDefaults u [buildInsertRow uid input newId now] = 0 := by
        unfold countDefaults
        rw [List.countP_cons]
        have hdf : input.is_default.getD false = false := by
          simpa using hd
        have : isDefaultFor u (buildInsertRow uid input newId now) = false := by
          unfold isDefaultFor buildInsertRow
          simp [hdf]
        simp [this]
      have := hInv u
      omega
  · rw [updateAddressMutation_db]
    by_cases hd : patch.is_default.getD false
    · rw [if_pos hd]
      by_cases hu : u = uid
      · subst hu
        unfold countDefaults updateTargetRows
        rw [countP_map_eq]
        apply countP_le_one_of_nodup_id _ xid
        · show ((clearDefaultsExcept u xid db).map Address.id).Nodup
          have heq : (clearDefaultsExcept u xid db).map Address.id = db.map Address.id :=
            map_id_map_of_id_preserved _ (clearRowExcept_id u xid) db
          rw [heq]
          exact hWF
        · intro b hb h
          by_cases hp : b.id = xid ∧ b.user_id = u
          · exact hp.1
          · rw [if_neg hp] at h
            rcases List.mem_map.mp hb with ⟨c, hc, rfl⟩
            rw [clearRowExcept_id]
            by_cases hcc : c.user_id = u ∧ c.id ≠ xid
            · exfalso
              unfold clearRowExcept at h
              rw [if_pos hcc, isDefaultFor_iff] at h
              simpa using h.2
            · by_contra hne
              unfold clearRowExcept at h
              rw [if_neg hcc, isDefaultFor_iff] at h
              exact hcc ⟨h.1, hne⟩
      · have h1 : countDefaults u
            (updateTargetRows uid xid patch now (clearDefaultsExcept uid xid db))
            ≤ countDefaults u (clearDefaultsExcept uid xid db) := by
          apply countDefaults_map_le
          intro a _ h
          by_cases hp : a.id = xid ∧ a.user_id = uid
          · rw [if_pos hp, isDefaultFor_iff, patchRow_user_id] at h
            exact absurd (h.1.symm.trans hp.2) hu
          · rwa [if_neg hp] at h
        have h2 : countDefaults u (clearDefaultsExcept uid xid db) ≤ countDefaults u db :=
          countDefaults_map_le _ _ _ (fun a _ h => isDefaultFor_clearRowExcept u uid xid a h)
        have := hInv u
        omega
    · rw [if_neg hd]
      have hdf : patch.is_default.getD false = false := by
        simpa using hd
      have h1 : countDefaults u (updateTargetRows uid xid patch now db) ≤ countDefaults u db := by
        apply countDefaults_map_le
        intro a _ h
        by_cases hp : a.id = xid ∧ a.user_id = uid
        · rw [if_pos hp, isDefaultFor_iff, patchRow_user_id, patchRow_is_default] at h
          rw [isDefaultFor_iff]
          refine ⟨h.1, ?_⟩
          cases hpd : patch.is_default with
          | none =>
            rw [hpd] at h
            exact h.2
          | some v =>
            rw [hpd] at hdf h
            simp at hdf
            rw [hdf] at h
            exact absurd h.2 (by simp)
        · rwa [if_neg hp] at h
      have := hInv u
      omega
  · rw [setDefaultAddressMutation_db]
    by_cases hu : u = uid
    · subst hu
      unfold countDefaults
      rw [countP_map_eq]
      apply countP_le_one_of_nodup_id _ xid
      · show ((clearDefaults u db).map Address.id).Nodup
        have heq : (clearDefaults u db).map Address.id = db.map Address.id :=
          map_id_map_of_id_preserved _ (clearRow_id u) db
        rw [heq]
        exact hWF
      · intro b hb h
        unfold setDefaultRow at h
        by_cases hp : b.id = xid ∧ b.user_id = u
        · exact hp.1
        · rw [if_neg hp] at h
          have h0 := countDefaults_clearDefaults_self u db
          unfold countDefaults at h0
          exact absurd h (List.countP_eq_zero.mp h0 b hb)
    · have h1 : countDefaults u ((clearDefaults uid db).map (setDefaultRow uid xid now))
          ≤ countDefaults u (clearDefaults uid db) :=
        countDefaults_map_le _ _ _ (fun a _ h => isDefaultFor_setDefaultRow_ne u uid xid now a hu h)
      have h2 : countDefaults u (clearDefaults uid db) ≤ countDefaults u db :=
        countDefaults_map_le _ _ _ (fun a _ h => isDefaultFor_clearRow u uid a h)
      have := hInv u
      omega

theorem clearRow_user_id (uid : String) (a : Address) :
    (clearRow uid a).user_id = a.user_id := by
  unfold clearRow
  split <;> rfl

theorem clearRowExcept_user_id (uid xid : String) (a : Address) :
    (clearRowExcept uid xid a).user_id = a.user_id := by
  unfold clearRowExcept
  split <;> rfl

theorem map_self_of_fix (f : Address → Address) (l : List Address)
    (h : ∀ a ∈ l, f a = a) : l.map f = l := by
  induction l with
  | nil => rfl
  | cons a t ih =>
    rw [List.map_cons, h a (List.mem_cons_self a t),
      ih (fun b hb => h b (List.mem_cons_of_mem a hb))]

theorem filter_self_idem (p : Address → Bool) (l : List Address) :
    (l.filter p).filter p = l.filter p := by
  apply List.filter_eq_self.mpr
  intro a ha
  exact List.of_mem_filter ha

theorem updateAddressBody_result_of_empty (uid xid : String) (input : UpdateInput)
    (now : Nat) (db1 : DB) (tr1 : List RemoteCall)
    (hm : matchedRows uid xid db1 = []) :
    (updateAddressBody uid xid input now db1 tr1).result = Except.error AddrError.NotFoundError := by
  unfold updateAddressBody
  rw [hm]

/-- Witness for C1: the invariant hypotheses hold at a concrete one-row table
and are preserved by each of the three mutations there. -/
theorem default_invariant_preserved_witness :
    (([addrW1] : DB).map Address.id).Nodup ∧ (∀ v, countDefaults v [addrW1] ≤ 1) ∧
    (countDefaults "u1" (createAddressMutation (some "u1") inputW "n1" 5 false false [addrW1]).db ≤ 1 ∧
     countDefaults "u1" (updateAddressMutation (some "u1") "a1" patchW 5 [addrW1]).db ≤ 1 ∧
     countDefaults "u1" (setDefaultAddressMutation (some "u1") "a1" 5 false false [addrW1]).db ≤ 1) := by
  have hInv : ∀ v, countDefaults v [addrW1] ≤ 1 := by
    intro v
    unfold countDefaults
    exact Nat.le_trans (List.countP_le_length _) (by simp)
  exact ⟨by decide, hInv,
    default_invariant_preserved [addrW1] "u1" "u1" "n1" "a1" inputW patchW 5 (by decide) hInv⟩

/-- Claim C2: a save whose full address trims to the empty string (empty or
whitespace-only) fails the local validation check with `ValidationError`,
leaves the table untouched, and issues zero remote calls. -/
theorem create_blank_address_rejected
    (user : Option String) (form : FormState) (pan : Option String) (ward : Option Int)
    (editing : Option String) (newId : String) (now : Nat) (db : DB)
    (h : jsTrim form.fullAddress = "") :
    (handleSaveAddress user form pan ward editing newId now db).result
        = Except.error AddrError.ValidationError ∧
    (handleSaveAddress user form pan ward editing newId now db).db = db ∧
    (handleSaveAddress user form pan ward editing newId now db).trace = [] := by
  unfold handleSaveAddress
  rw [if_pos h]
  exact ⟨rfl, rfl, rfl⟩

/-- Witness for C2 at a whitespace-only form input. -/
theorem create_blank_address_rejected_witness :
    jsTrim "   " = "" ∧
    ((handleSaveAddress (some "u1") ⟨"Home", "   ", "", false⟩ none none none "n1" 5 [addrW1]).result
        = Except.error AddrError.ValidationError ∧
     (handleSaveAddress (some "u1") ⟨"Home", "   ", "", false⟩ none none none "n1" 5 [addrW1]).db = [addrW1] ∧
     (handleSaveAddress (some "u1") ⟨"Home", "   ", "", false⟩ none none none "n1" 5 [addrW1]).trace = []) :=
  ⟨by decide,
   create_blank_address_rejected (some "u1") ⟨"Home", "   ", "", false⟩ none none none "n1" 5 [addrW1] (by decide)⟩

/-- Claim C3: for a resolved owner the list query returns exactly that
owner's rows, ordered default-flagged first and then by creation time
descending. -/
theorem list_default_first_created_desc (uid : String) (db : DB) :
    List.Sorted addrOrder (customerAddressesQuery (some uid) db) ∧
    (customerAddressesQuery (some uid) db).Perm
      (db.filter (fun a => decide (a.user_id = uid))) := by
  unfold customerAddressesQuery
  exact ⟨List.sorted_insertionSort addrOrder _, List.perm_insertionSort addrOrder _⟩

/-- Claim C4: a successful `setDefault` issues the clear-all-defaults call
strictly before the set-this-row call, leaves the target row default-flagged
with a refreshed `updated_at`, and leaves every other row of the owner with
`is_default = false`. -/
theorem setDefault_postcondition (db : DB) (uid xid : String) (now : Nat) :
    (setDefaultAddressMutation (some uid) xid now false false db).result = Except.ok () ∧
    (setDefaultAddressMutation (some uid) xid now false false db).trace
        = [RemoteCall.clearDefaultsCall uid, RemoteCall.setDefaultCall uid xid] ∧
    (∀ a ∈ (setDefaultAddressMutation (some uid) xid now false false db).db,
        a.user_id = uid →
          (a.id = xid → a.is_default = true ∧ a.updated_at = now) ∧
          (a.id ≠ xid → a.is_default = false)) ∧
    ((∃ a ∈ db, a.id = xid ∧ a.user_id = uid) →
        ∃ a ∈ (setDefaultAddressMutation (some uid) xid now false false db).db,
          a.id = xid ∧ a.user_id = uid ∧ a.is_default = true ∧ a.updated_at = now) := by
  refine ⟨rfl, rfl, ?_, ?_⟩
  · rw [setDefaultAddressMutation_db]
    intro a ha hau
    rcases List.mem_map.mp ha with ⟨b, hb, rfl⟩
    rcases List.mem_map.mp hb with ⟨c, _, rfl⟩
    by_cases hcu : c.user_id = uid
    · by_cases hci : c.id = xid
      · have hred : setDefaultRow uid xid now (clearRow uid c)
            = { c with is_default := true, updated_at := now } := by
          unfold clearRow setDefaultRow
          rw [if_pos hcu, if_pos ⟨hci, hcu⟩]
        rw [hred]
        exact ⟨fun _ => ⟨rfl, rfl⟩, fun hne => absurd hci hne⟩
      · have hred : setDefaultRow uid xid now (clearRow uid c)
            = { c with is_default := false } := by
          unfold clearRow setDefaultRow
          rw [if_pos hcu, if_neg (by intro hcond; exact hci hcond.1)]
        rw [hred]
        exact ⟨fun hid => absurd hid hci, fun _ => rfl⟩
    · have hred : setDefaultRow uid xid now (clearRow uid c) = c := by
        unfold clearRow setDefaultRow
        rw [if_neg hcu, if_neg (by intro hcond; exact hcu hcond.2)]
      rw [hred] at hau
      exact absurd hau hcu
  · rintro ⟨a, ha, hid, hau⟩
    rw [setDefaultAddressMutation_db]
    have hred : setDefaultRow uid xid now (clearRow uid a)
        = { a with is_default := true, updated_at := now } := by
      unfold clearRow setDefaultRow
      rw [if_pos hau, if_pos ⟨hid, hau⟩]
    refine ⟨setDefaultRow uid xid now (clearRow uid a),
      List.mem_map_of_mem _ (List.mem_map_of_mem _ ha), ?_, ?_, ?_, ?_⟩
    · rw [hred]
      exact hid
    · rw [hred]
      exact hau
    · rw [hred]
    · rw [hred]

/-- Witness for C4 at a two-row table: promoting the later, non-default row. -/
theorem setDefault_postcondition_witness :
    (∃ a ∈ ([addrW1, addrW2] : DB), a.id = "b1" ∧ a.user_id = "u1") ∧
    (setDefaultAddressMutation (some "u1") "b1" 7 false false [addrW1, addrW2]).result = Except.ok () ∧
    (∃ a ∈ (setDefaultAddressMutation (some "u1") "b1" 7 false false [addrW1, addrW2]).db,
        a.id = "b1" ∧ a.user_id = "u1" ∧ a.is_default = true ∧ a.updated_at = 7) := by
  have hex : ∃ a ∈ ([addrW1, addrW2] : DB), a.id = "b1" ∧ a.user_id = "u1" :=
    ⟨addrW2, List.mem_cons_of_mem _ (List.mem_cons_self _ _), rfl, rfl⟩
  exact ⟨hex, (setDefault_postcondition [addrW1, addrW2] "u1" "b1" 7).1,
    (setDefault_postcondition [addrW1, addrW2] "u1" "b1" 7).2.2.2 hex⟩

/-- Claim C5: when `update` promotes the target row to default, the clear
step it issues first is the except-form call, which never clears the target
row and clears `is_default` exactly on the owner's other rows. -/
theorem update_clear_excludes_target (db : DB) (uid xid : String) (patch : UpdateInput) (now : Nat)
    (h : patch.is_default = some true) :
    (updateAddressMutation (some uid) xid patch now db).trace
        = [RemoteCall.clearDefaultsExceptCall uid xid, RemoteCall.patchRowCall uid xid] ∧
    clearDefaultsExcept uid xid db = db.map (clearRowExcept uid xid) ∧
    (∀ a : Address, a.id = xid → clearRowExcept uid xid a = a) ∧
    (∀ a : Address, a.user_id ≠ uid → clearRowExcept uid xid a = a) ∧
    (∀ a : Address, a.user_id = uid → a.id ≠ xid →
        (clearRowExcept uid xid a).is_default = false) := by
  refine ⟨?_, rfl, ?_, ?_, ?_⟩
  · unfold updateAddressMutation
    rw [h]
    simp [updateAddressBody_trace]
  · intro a hid
    unfold clearRowExcept
    rw [if_neg (by intro hcond; exact hcond.2 hid)]
  · intro a hu
    unfold clearRowExcept
    rw [if_neg (by intro hcond; exact hu hcond.1)]
  · intro a hu hne
    unfold clearRowExcept
    rw [if_pos ⟨hu, hne⟩]

/-- Witness for C5 with a default-promoting patch on a two-row table. -/
theorem update_clear_excludes_target_witness :
    patchW.is_default = some true ∧
    (updateAddressMutation (some "u1") "b1" patchW 7 [addrW1, addrW2]).trace
        = [RemoteCall.clearDefaultsExceptCall "u1" "b1", RemoteCall.patchRowCall "u1" "b1"] ∧
    clearRowExcept "u1" "b1" addrW2 = addrW2 ∧
    (clearRowExcept "u1" "b1" addrW1).is_default = false := by
  have h := update_clear_excludes_target [addrW1, addrW2] "u1" "b1" patchW 7 rfl
  exact ⟨rfl, h.1, h.2.2.1 addrW2 rfl, h.2.2.2.2 addrW1 rfl (by decide)⟩

/-- Claim C6: the initial-selection derivation is a pure function of the
fetched list issuing no remote call: none on the empty list, the unique
default-flagged element wherever it sits when exactly one exists, and the
first element when no element is default-flagged. -/
theorem defaultAddress_selection (l : List Address) :
    (l = [] → defaultAddress l = none) ∧
    (∀ a ∈ l, a.is_default = true → (∀ b ∈ l, b.is_default = true → b = a) →
        defaultAddress l = some a) ∧
    ((∀ a ∈ l, a.is_default = false) → defaultAddress l = l.head?) := by
  refine ⟨?_, ?_, ?_⟩
  · intro h
    subst h
    rfl
  · intro a ha hdef huniq
    unfold defaultAddress
    cases hf : l.find? (fun x => x.is_default) with
    | none =>
      exact absurd hdef (List.find?_eq_none.mp hf a ha)
    | some c =>
      rw [huniq c (List.mem_of_find?_eq_some hf) (List.find?_some hf)]
  · intro h
    unfold defaultAddress
    have hf : l.find? (fun x => x.is_default) = none :=
      List.find?_eq_none.mpr (fun a ha => by simp [h a ha])
    rw [hf]

/-- Witness for C6: the unique default sits in the middle of a three-row
list and is returned; the empty list yields none. -/
theorem defaultAddress_selection_witness :
    (addrW1 ∈ [addrW2, addrW1, addrW3] ∧ addrW1.is_default = true ∧
      (∀ b ∈ [addrW2, addrW1, addrW3], b.is_default = true → b = addrW1)) ∧
    defaultAddress [addrW2, addrW1, addrW3] = some addrW1 ∧
    defaultAddress ([] : List Address) = none := by
  refine ⟨⟨by decide, rfl, by decide⟩, ?_, ?_⟩
  · exact (defaultAddress_selection [addrW2, addrW1, addrW3]).2.1 addrW1 (by decide) rfl (by decide)
  · exact (defaultAddress_selection []).1 rfl

/-- Claim C7: an `update` whose address id does not resolve to a row owned by
the caller fails with `NotFoundError`, and the final patch call modifies no
row of any owner: the table is exactly what the optional clear step left. -/
theorem update_foreign_row_not_found (db : DB) (uid xid : String) (patch : UpdateInput) (now : Nat)
    (h : ∀ a ∈ db, ¬(a.id = xid ∧ a.user_id = uid)) :
    (updateAddressMutation (some uid) xid patch now db).result
        = Except.error AddrError.NotFoundError ∧
    (updateAddressMutation (some uid) xid patch now db).db
        = (if patch.is_default.getD false then clearDefaultsExcept uid xid db else db) := by
  have h1 : ∀ a ∈ (if patch.is_default.getD false then clearDefaultsExcept uid xid db else db),
      ¬(a.id = xid ∧ a.user_id = uid) := by
    intro a ha
    by_cases hd : patch.is_default.getD false
    · rw [if_pos hd] at ha
      rcases List.mem_map.mp ha with ⟨c, hc, rfl⟩
      intro hcond
      apply h c hc
      constructor
      · rw [← clearRowExcept_id uid xid c]
        exact hcond.1
      · rw [← clearRowExcept_user_id uid xid c]
        exact hcond.2
    · rw [if_neg hd] at ha
      exact h a ha
  have hm : matchedRows uid xid (if patch.is_default.getD false then clearDefaultsExcept uid xid db else db) = [] := by
    apply List.filter_eq_nil_iff.mpr
    intro a ha
    simpa using h1 a ha
  have htars : updateTargetRows uid xid patch now
      (if patch.is_default.getD false then clearDefaultsExcept uid xid db else db)
      = (if patch.is_default.getD false then clearDefaultsExcept uid xid db else db) := by
    unfold updateTargetRows
    exact map_self_of_fix _ _ (fun a ha => if_neg (h1 a ha))
  constructor
  · by_cases hd : patch.is_default.getD false
    · rw [if_pos hd] at hm
      have hres := updateAddressBody_result_of_empty uid xid patch now
        (clearDefaultsExcept uid xid db) [RemoteCall.clearDefaultsExceptCall uid xid] hm
      unfold updateAddressMutation
      simpa [hd] using hres
    · rw [if_neg hd] at hm
      have hres := updateAddressBody_result_of_empty uid xid patch now db [] hm
      unfold updateAddressMutation
      simpa [hd] using hres
  · rw [updateAddressMutation_db]
    exact htars

/-- Witness for C7: updating a row owned by a different owner. -/
theorem update_foreign_row_not_found_witness :
    (∀ a ∈ ([addrW3] : DB), ¬(a.id = "x1" ∧ a.user_id = "u1")) ∧
    (updateAddressMutation (some "u1") "x1" patchN 7 [addrW3]).result
        = Except.error AddrError.NotFoundError ∧
    (updateAddressMutation (some "u1") "x1" patchN 7 [addrW3]).db
        = (if patchN.is_default.getD false then clearDefaultsExcept "u1" "x1" [addrW3] else [addrW3]) := by
  have h := update_foreign_row_not_found [addrW3] "u1" "x1" patchN 7 (by decide)
  exact ⟨by decide, h.1, h.2⟩

/-- Claim C8: `delete` is idempotent at the application boundary: it succeeds
whether or not a row matches, deleting a nonexistent id leaves the table
unchanged, and repeating the same delete succeeds and leaves the table as
after the first delete. -/
theorem delete_idempotent (db : DB) (uid xid : String) :
    (deleteAddressMutation (some uid) xid db).result = Except.ok () ∧
    (deleteAddressMutation (some uid) xid (deleteAddressMutation (some uid) xid db).db).result
        = Except.ok () ∧
    (deleteAddressMutation (some uid) xid (deleteAddressMutation (some uid) xid db).db).db
        = (deleteAddressMutation (some uid) xid db).db ∧
    ((∀ a ∈ db, ¬(a.id = xid ∧ a.user_id = uid)) →
        (deleteAddressMutation (some uid) xid db).db = db) := by
  refine ⟨rfl, rfl, ?_, ?_⟩
  · show ((db.filter (fun a => !decide (a.id = xid ∧ a.user_id = uid))).filter
        (fun a => !decide (a.id = xid ∧ a.user_id = uid)))
      = db.filter (fun a => !decide (a.id = xid ∧ a.user_id = uid))
    exact filter_self_idem _ _
  · intro h
    show db.filter (fun a => !decide (a.id = xid ∧ a.user_id = uid)) = db
    apply List.filter_eq_self.mpr
    intro a ha
    simpa using not_and_or.mp (h a ha)

/-- Witness for C8: deleting an id that matches no row of the owner. -/
theorem delete_idempotent_witness :
    (∀ a ∈ ([addrW1] : DB), ¬(a.id = "zz" ∧ a.user_id = "u1")) ∧
    (deleteAddressMutation (some "u1") "zz" [addrW1]).result = Except.ok () ∧
    (deleteAddressMutation (some "u1") "zz" [addrW1]).db = [addrW1] := by
  exact ⟨by decide, (delete_idempotent [addrW1] "u1" "zz").1,
    (delete_idempotent [addrW1] "u1" "zz").2.2.2 (by decide)⟩

/-- Claim C9: in `create` (with the default flag requested) and in
`setDefault`, the outcome of the first, clear-defaults remote call is never
inspected or propagated: both remote calls are issued in order whatever the
first call's outcome, and the reported result depends only on the second
call — success exactly when the second call succeeds. -/
theorem clear_call_failure_ignored (db : DB) (uid xid newId : String)
    (input : CreateAddressInput) (now : Nat) (fail1 fail2 : Bool)
    (h : input.is_default = some true) :
    (createAddressMutation (some uid) input newId now fail1 fail2 db).trace
        = [RemoteCall.clearDefaultsCall uid,
           RemoteCall.insertRowCall (buildInsertRow uid input newId now)] ∧
    (createAddressMutation (some uid) input newId now fail1 fail2 db).result
        = (if fail2 then Except.error AddrError.PersistenceError
           else Except.ok (buildInsertRow uid input newId now)) ∧
    (setDefaultAddressMutation (some uid) xid now fail1 fail2 db).trace
        = [RemoteCall.clearDefaultsCall uid, RemoteCall.setDefaultCall uid xid] ∧
    (setDefaultAddressMutation (some uid) xid now fail1 fail2 db).result
        = (if fail2 then Except.error AddrError.PersistenceError else Except.ok ()) := by
  unfold createAddressMutation setDefaultAddressMutation
  rw [h]
  cases fail2 <;> simp

/-- Witness for C9: the clear call fails, the second call succeeds, and the
operations still report success with both calls issued. -/
theorem clear_call_failure_ignored_witness :
    inputW.is_default = some true ∧
    (createAddressMutation (some "u1") inputW "n1" 5 true false [addrW1]).trace
        = [RemoteCall.clearDefaultsCall "u1",
           RemoteCall.insertRowCall (buildInsertRow "u1" inputW "n1" 5)] ∧
    (createAddressMutation (some "u1") inputW "n1" 5 true false [addrW1]).result
        = (if false then Except.error AddrError.PersistenceError
           else Except.ok (buildInsertRow "u1" inputW "n1" 5)) ∧
    (setDefaultAddressMutation (some "u1") "a1" 5 true false [addrW1]).trace
        = [RemoteCall.clearDefaultsCall "u1", RemoteCall.setDefaultCall "u1" "a1"] ∧
    (setDefaultAddressMutation (some "u1") "a1" 5 true false [addrW1]).result
        = (if false then Except.error AddrError.PersistenceError else Except.ok ()) :=
  ⟨rfl, clear_call_failure_ignored [addrW1] "u1" "a1" "n1" inputW 5 true false rfl⟩

/-- Claim C10: `create` coerces falsy optional inputs before the insert: a
ward number of 0 is stored as null, an empty-string landmark as null, and an
empty-string label as "Home"; the coerced row is what the operation inserts
and returns, so reading back is not the identity on those inputs. -/
theorem create_coerces_falsy_inputs (db : DB) (uid newId : String)
    (input : CreateAddressInput) (now : Nat) :
    (input.ward_number = some 0 → (buildInsertRow uid input newId now).ward_number = none) ∧
    (input.landmark = some "" → (buildInsertRow uid input newId now).landmark = none) ∧
    (input.address_label = some "" → (buildInsertRow uid input newId now).address_label = "Home") ∧
    (createAddressMutation (some uid) input newId now false false db).result
        = Except.ok (buildInsertRow uid input newId now) ∧
    (createAddressMutation (some uid) input newId now false false db).db
        = (if input.is_default.getD false then clearDefaults uid db else db)
          ++ [buildInsertRow uid input newId now] := by
  refine ⟨?_, ?_, ?_, ?_, createAddressMutation_db uid input newId now db⟩
  · intro h
    simp [buildInsertRow, jsOrNullInt, h]
  · intro h
    simp [buildInsertRow, jsOrNullString, h]
  · intro h
    simp [buildInsertRow, jsOrHome, h]
  · unfold createAddressMutation
    by_cases hd : input.is_default.getD false <;> simp [hd]

/-- Witness for C10 at an input carrying ward number 0, empty landmark and
empty label. -/
theorem create_coerces_falsy_inputs_witness :
    (inputW.ward_number = some 0 ∧ inputW.landmark = some "" ∧ inputW.address_label = some "") ∧
    (buildInsertRow "u1" inputW "n1" 5).ward_number = none ∧
    (buildInsertRow "u1" inputW "n1" 5).landmark = none ∧
    (buildInsertRow "u1" inputW "n1" 5).address_label = "Home" ∧
    (createAddressMutation (some "u1") inputW "n1" 5 false false [addrW1]).result
        = Except.ok (buildInsertRow "u1" inputW "n1" 5) := by
  have h := create_coerces_falsy_inputs [addrW1] "u1" "n1" inputW 5
  exact ⟨⟨rfl, rfl, rfl⟩, h.1 rfl, h.2.1 rfl, h.2.2.1 rfl, h.2.2.2.1⟩
